import Mathlib

/-!
# Verification of the ffmpeg-api segment/batch engine (`src/app.py`)

Shallow embedding of the Flask application `app.py`.  Pure helpers
(`validate_time_format`, `process_cutlist`, the ffmpeg argument builders)
become Lean functions over `String`/`List`.  Side effects are made explicit:

* the filesystem is a predicate `fs : String → Bool` (path existence, as
  queried by `os.path.exists`);
* the contents of the cutlist file are supplied by `read : String → List String`
  mapping a path to the lines of the file at that path;
* the external tool (`subprocess.run` on an ffmpeg command) is an oracle
  `tool : List String → ProcResult` giving the exit status and captured
  standard-error text for a command line;
* observable side effects of an endpoint (directory creation, subprocess
  invocations) are collected in an ordered `List Effect` trace.

Python string primitives (`strip`, `split`, `startswith`, `endswith`,
`int(...)`, `lower`) are modelled over `List Char` (ASCII) so that all
definitions evaluate by kernel reduction.  Python's bare `except:` in
`validate_time_format` corresponds to totality of the Lean function.
-/

/-- ASCII whitespace as stripped by Python `str.strip()` / `int()`. -/
def isPyWs (c : Char) : Bool :=
  c = ' ' || c = '\t' || c = '\n' || c = '\r' || c = '\x0b' || c = '\x0c'

/-- Strip leading and trailing whitespace from a character list. -/
def stripWsChars (cs : List Char) : List Char :=
  ((cs.dropWhile isPyWs).reverse.dropWhile isPyWs).reverse

/-- Python `str.strip()` (ASCII whitespace). -/
def pyStrip (s : String) : String :=
  String.mk (stripWsChars s.data)

/-- Python `str.split(sep)` for a one-character separator: splitting `""`
gives `[""]`, and adjacent separators give empty components. -/
def splitOnChar (sep : Char) : List Char → List (List Char)
  | [] => [[]]
  | c :: rest =>
    if c = sep then [] :: splitOnChar sep rest
    else
      match splitOnChar sep rest with
      | [] => [[c]]
      | g :: gs => (c :: g) :: gs

/-- Model of `time_str.split(':')` as a list of strings. -/
def splitColon (s : String) : List String :=
  (splitOnChar ':' s.data).map String.mk

/-- Worker for Python `str.split()` with no separator: `cur` is the
characters of the token being built, in reverse. -/
def splitWsGo : List Char → List Char → List (List Char)
  | cur, [] => if cur = [] then [] else [cur.reverse]
  | cur, c :: rest =>
    if isPyWs c then
      if cur = [] then splitWsGo [] rest else cur.reverse :: splitWsGo [] rest
    else splitWsGo (c :: cur) rest

/-- Python `str.split()` with no separator: split on whitespace runs,
dropping empty tokens. -/
def pySplit (s : String) : List String :=
  (splitWsGo [] s.data).map String.mk

/-- Predicate `charsPrefix p s` is true when `p` is a prefix of `s`. -/
def charsPrefix : List Char → List Char → Bool
  | [], _ => true
  | _ :: _, [] => false
  | a :: as, b :: bs => a = b && charsPrefix as bs

/-- Python `a.startswith(p)` (list-prefix test on the characters). -/
def pyStartsWith (s p : String) : Bool :=
  charsPrefix p.data s.data

/-- Python `a.endswith(p)`. -/
def pyEndsWith (s p : String) : Bool :=
  pyStartsWith (String.mk s.data.reverse) (String.mk p.data.reverse)

/-- Python `str.lower()` (ASCII). -/
def pyLower (s : String) : String :=
  String.mk (s.data.map Char.toLower)

/-- After the first digit of a Python integer literal: digits, with single
underscores allowed only between digits. -/
def pyDigitsTail : List Char → Bool
  | [] => true
  | '_' :: rest =>
    match rest with
    | [] => false
    | c :: rest2 => c.isDigit && pyDigitsTail rest2
  | c :: rest => c.isDigit && pyDigitsTail rest

/-- Digit-group syntax accepted by Python `int(...)` after the optional
sign: at least one digit, underscores only between digits. -/
def pyDigitsOk : List Char → Bool
  | [] => false
  | c :: rest => c.isDigit && pyDigitsTail rest

/-- Decimal value of a digit group, ignoring underscores. -/
def digitsToNat (cs : List Char) : Nat :=
  cs.foldl (fun acc c => if c = '_' then acc else acc * 10 + (c.toNat - '0'.toNat)) 0

/-- Python `int(s)` (base 10, ASCII): strip whitespace, optional `+`/`-`
sign, then a digit group; `none` models a raised `ValueError`. -/
def pyInt (s : String) : Option Int :=
  match stripWsChars s.data with
  | '+' :: rest => if pyDigitsOk rest then some (Int.ofNat (digitsToNat rest)) else none
  | '-' :: rest => if pyDigitsOk rest then some (-(Int.ofNat (digitsToNat rest))) else none
  | rest => if pyDigitsOk rest then some (Int.ofNat (digitsToNat rest)) else none

/-- Model of `hours, minutes, seconds = map(int, parts)` followed by the chained
range comparison of `validate_time_format`; a `none` is a raised
`ValueError`, which the bare `except:` turns into `False`. -/
def checkFields : Option Int → Option Int → Option Int → Bool
  | some hours, some minutes, some seconds =>
    decide (0 ≤ hours) && decide (hours ≤ 23) &&
    decide (0 ≤ minutes) && decide (minutes ≤ 59) &&
    decide (0 ≤ seconds) && decide (seconds ≤ 59)
  | _, _, _ => false

/-- Function `validate_time_format` from `app.py`: split on `:`, require exactly 3
parts, parse each with `int`, check `0 <= h <= 23`, `0 <= m <= 59`,
`0 <= s <= 59`. -/
def validate_time_format (time_str : String) : Bool :=
  match splitColon time_str with
  | [p1, p2, p3] => checkFields (pyInt p1) (pyInt p2) (pyInt p3)
  | _ => false

/-- One entry of the `cuts` list built by `process_cutlist`:
`{'start': ..., 'end': ..., 'output': ...}`. -/
structure CutSpec where
  start : String
  «end» : String
  output : String
deriving DecidableEq, Repr

/-- The body of the `for line in f` loop of `process_cutlist`: skip blank
and `#`-comment lines; accept a stripped line only if it splits into
exactly 3 whitespace tokens, storing the third token with `.mp4`
appended (`f"{output_name}.mp4"`). -/
def parseCutLine (line : String) : Option CutSpec :=
  let t := pyStrip line
  if t = "" || pyStartsWith t "#" then none
  else
    match pySplit t with
    | [start_time, end_time, output_name] =>
      some { start := start_time, «end» := end_time, output := output_name ++ ".mp4" }
    | _ => none

/-- Function `process_cutlist` from `app.py`, over the list of lines of the cutlist
file (the `open(...)`/iteration is modelled by the caller supplying the
lines). -/
def process_cutlist (lines : List String) : List CutSpec :=
  lines.filterMap parseCutLine

/-- Constant `SHARED_FOLDER` from `app.py`. -/
def SHARED_FOLDER : String := "/shared"

/-- Model of `os.path.join(a, b)` (POSIX, two components): an absolute `b` replaces
`a`; otherwise a `/` is inserted unless `a` is empty or ends in `/`. -/
def os_path_join (a b : String) : String :=
  if pyStartsWith b "/" then b
  else if a = "" || pyEndsWith a "/" then a ++ b
  else a ++ "/" ++ b

/-- Result of a finished subprocess: exit status and captured stderr.
This is the behaviour of one external-tool invocation. -/
structure ProcResult where
  exitCode : Nat
  stderr : String
deriving DecidableEq, Repr

/-- What a `cut_video`/`extract_audio`/`extract_muted_video` call produces:
the returned boolean and the diagnostic lines printed on failure. -/
structure RunOutcome where
  success : Bool
  log : List String
deriving DecidableEq, Repr

/-- The `ffmpeg` argument list built by `extract_muted_video`. -/
def extract_muted_video_cmd (input_path output_path : String) : List String :=
  ["ffmpeg", "-i", input_path, "-an", "-c:v", "copy", "-y", output_path]

/-- The `ffmpeg` argument list built by `extract_audio`. -/
def extract_audio_cmd (input_path output_path audio_format : String) : List String :=
  ["ffmpeg", "-i", input_path, "-vn",
   "-acodec", if audio_format = "mp3" then "libmp3lame" else "pcm_s16le",
   "-y", output_path]

/-- The `ffmpeg` argument list built by `cut_video`. -/
def cut_video_cmd (input_path start_time end_time output_path : String) : List String :=
  ["ffmpeg", "-i", input_path, "-ss", start_time, "-to", end_time,
   "-c:v", "libx264", "-preset", "medium", "-c:a", "aac", "-y", output_path]

/-- The shared `try: subprocess.run(cmd, check=True, capture_output=True)
... except CalledProcessError` pattern of the three runners: `True` on exit
status zero; on non-zero exit the raised `CalledProcessError` is caught,
the captured stderr printed, and `False` returned. -/
def runCheckedTool (r : ProcResult) : RunOutcome :=
  if r.exitCode = 0 then { success := true, log := [] }
  else { success := false, log := ["Error running ffmpeg: " ++ r.stderr] }

/-- Function `extract_muted_video` from `app.py`, against a tool oracle. -/
def extract_muted_video (tool : List String → ProcResult)
    (input_path output_path : String) : RunOutcome :=
  runCheckedTool (tool (extract_muted_video_cmd input_path output_path))

/-- Function `extract_audio` from `app.py`, against a tool oracle. -/
def extract_audio (tool : List String → ProcResult)
    (input_path output_path audio_format : String) : RunOutcome :=
  runCheckedTool (tool (extract_audio_cmd input_path output_path audio_format))

/-- Function `cut_video` from `app.py`, against a tool oracle. -/
def cut_video (tool : List String → ProcResult)
    (input_path start_time end_time output_path : String) : RunOutcome :=
  runCheckedTool (tool (cut_video_cmd input_path start_time end_time output_path))

/-- Observable filesystem/process side effects of an endpoint, in order:
`os.makedirs(path, exist_ok=...)` calls and subprocess invocations. -/
inductive Effect where
  | makedirs (path : String) (exist_ok : Bool)
  | runTool (cmd : List String)
deriving DecidableEq, Repr

/-- Model of `os.makedirs(path, exist_ok=ok)`: it raises `FileExistsError` exactly when
the target already exists and `exist_ok` is false. -/
def makedirs_raises (fs : String → Bool) (path : String) (exist_ok : Bool) : Bool :=
  fs path && !exist_ok

/-- One item of the `segments` array of a `POST /segments` request
(JSON-shape and field-presence checks of the HTTP layer are modelled by
this typed structure). -/
structure Segment where
  start_time : String
  end_time : String
  output_name : String
deriving DecidableEq, Repr

/-- Body of a `POST /segments` request. -/
structure SegmentsRequest where
  input_file : String
  segments : List Segment
  output_folder : String
deriving DecidableEq, Repr

/-- Body of a `POST /segments/from-file` request. -/
structure FromFileRequest where
  input_file : String
  cutlist_file : String
  output_folder : String
deriving DecidableEq, Repr

/-- Body of a `POST /extract-audio` request; `format` is `none` when the
field is absent (`data.get('format', 'mp3')`). -/
structure ExtractAudioRequest where
  input_file : String
  output_file : String
  format : Option String
deriving DecidableEq, Repr

/-- Body of a `POST /extract-muted-video` request. -/
structure ExtractMutedVideoRequest where
  input_file : String
  output_file : String
deriving DecidableEq, Repr

/-- One element of the `results` list of the `/segments` endpoint. -/
structure SegOutcome where
  output_file : String
  start_time : String
  end_time : String
  success : Bool
deriving DecidableEq, Repr

/-- One element of the `results` list of the `/segments/from-file` endpoint. -/
structure FromFileOutcome where
  output_file : String
  success : Bool
deriving DecidableEq, Repr

/-- Response of the two batch endpoints: an error JSON with an HTTP status
code, or the `'Processing complete'` payload with per-item results. -/
inductive BatchResp (α : Type) where
  | err (msg : String) (code : Nat)
  | ok (results : List α)
deriving DecidableEq, Repr

/-- Response of the two single-item endpoints: an error JSON with an HTTP
status code, or a success payload carrying the reported output name. -/
inductive SingleResp where
  | err (msg : String) (code : Nat)
  | ok (output_file : String)
deriving DecidableEq, Repr

/-- The per-segment validation loop of `create_segments` (lines 266-286):
first failing check wins; `i` is the running index used in the error
message. -/
def validateSegments : Nat → List Segment → Option String
  | _, [] => none
  | i, seg :: rest =>
    if !(validate_time_format seg.start_time) then
      some ("Invalid start_time format at index " ++ toString i ++ ". Required format: HH:MM:SS")
    else if !(validate_time_format seg.end_time) then
      some ("Invalid end_time format at index " ++ toString i ++ ". Required format: HH:MM:SS")
    else validateSegments (i + 1) rest

/-- Endpoint `create_segments` (`POST /segments`): empty-array check, per-segment
time validation (rejecting the whole request on the first failure), input
existence check, `os.makedirs(..., exist_ok=True)`, then one `cut_video`
call per segment with `f"{output_name}.mp4"` appended unconditionally. -/
def create_segments (fs : String → Bool) (tool : List String → ProcResult)
    (req : SegmentsRequest) : BatchResp SegOutcome × List Effect :=
  if req.segments.isEmpty then
    (.err "segments must be a non-empty array" 400, [])
  else
    match validateSegments 0 req.segments with
    | some msg => (.err msg 400, [])
    | none =>
      let input_path := os_path_join SHARED_FOLDER req.input_file
      if !(fs input_path) then (.err "Input file not found" 404, [])
      else
        let output_dir := os_path_join SHARED_FOLDER req.output_folder
        let items := req.segments.map (fun seg =>
          let output_path := os_path_join output_dir (seg.output_name ++ ".mp4")
          let r := cut_video tool input_path seg.start_time seg.end_time output_path
          ({ output_file := os_path_join req.output_folder (seg.output_name ++ ".mp4"),
             start_time := seg.start_time, end_time := seg.end_time,
             success := r.success },
           Effect.runTool (cut_video_cmd input_path seg.start_time seg.end_time output_path)))
        (.ok (items.map Prod.fst),
         Effect.makedirs output_dir true :: items.map Prod.snd)

/-- Endpoint `create_segments_from_file` (`POST /segments/from-file`): joint
existence check on input and cutlist, `os.makedirs(..., exist_ok=True)`,
`process_cutlist`, then one `cut_video` call per parsed cut. -/
def create_segments_from_file (fs : String → Bool) (read : String → List String)
    (tool : List String → ProcResult) (req : FromFileRequest) :
    BatchResp FromFileOutcome × List Effect :=
  let input_path := os_path_join SHARED_FOLDER req.input_file
  let cutlist_path := os_path_join SHARED_FOLDER req.cutlist_file
  if !(fs input_path && fs cutlist_path) then
    (.err "Input file or cutlist file not found" 404, [])
  else
    let output_dir := os_path_join SHARED_FOLDER req.output_folder
    let cuts := process_cutlist (read cutlist_path)
    let items := cuts.map (fun cut =>
      let output_path := os_path_join output_dir cut.output
      let r := cut_video tool input_path cut.start cut.«end» output_path
      ({ output_file := os_path_join req.output_folder cut.output,
         success := r.success },
       Effect.runTool (cut_video_cmd input_path cut.start cut.«end» output_path)))
    (.ok (items.map Prod.fst),
     Effect.makedirs output_dir true :: items.map Prod.snd)

/-- Endpoint `extract_audio_endpoint` (`POST /extract-audio`): lower-case the
requested format (defaulting to `mp3`), reject formats outside
`['mp3', 'wav']`, check input existence, append `.{format}` unless already
present, then run `extract_audio`. -/
def extract_audio_endpoint (fs : String → Bool) (tool : List String → ProcResult)
    (req : ExtractAudioRequest) : SingleResp × List Effect :=
  let audio_format := pyLower (req.format.getD "mp3")
  if !(audio_format = "mp3" || audio_format = "wav") then
    (.err "Unsupported audio format. Use mp3 or wav" 400, [])
  else
    let input_path := os_path_join SHARED_FOLDER req.input_file
    if !(fs input_path) then (.err "Input file not found" 404, [])
    else
      let output_name :=
        if pyEndsWith req.output_file ("." ++ audio_format) then req.output_file
        else req.output_file ++ "." ++ audio_format
      let output_path := os_path_join SHARED_FOLDER output_name
      let r := extract_audio tool input_path output_path audio_format
      let effs := [Effect.runTool (extract_audio_cmd input_path output_path audio_format)]
      if r.success then (.ok output_name, effs)
      else (.err "Failed to extract audio" 500, effs)

/-- Endpoint `extract_muted_video_endpoint` (`POST /extract-muted-video`): check
input existence, append `.mp4` unless already present, then run
`extract_muted_video`. -/
def extract_muted_video_endpoint (fs : String → Bool) (tool : List String → ProcResult)
    (req : ExtractMutedVideoRequest) : SingleResp × List Effect :=
  let input_path := os_path_join SHARED_FOLDER req.input_file
  if !(fs input_path) then (.err "Input file not found" 404, [])
  else
    let output_name :=
      if pyEndsWith req.output_file ".mp4" then req.output_file
      else req.output_file ++ ".mp4"
    let output_path := os_path_join SHARED_FOLDER output_name
    let r := extract_muted_video tool input_path output_path
    let effs := [Effect.runTool (extract_muted_video_cmd input_path output_path)]
    if r.success then (.ok output_name, effs)
    else (.err "Failed to extract muted video" 500, effs)

/-- How an effect changes the modelled filesystem: `makedirs` adds the
directory path; a tool invocation (always run with `-y`) adds its output
file, the final command argument. -/
def applyEffect (fs : String → Bool) : Effect → (String → Bool)
  | .makedirs p _ => fun q => q = p || fs q
  | .runTool cmd => fun q => decide (cmd.getLast? = some q) || fs q

/-- Apply a trace of effects left to right. -/
def applyEffects (fs : String → Bool) (es : List Effect) : String → Bool :=
  es.foldl applyEffect fs

/-- Filesystem in which every queried path exists. -/
def fsAll : String → Bool := fun _ => true

/-- Filesystem in which no queried path exists. -/
def fsNone : String → Bool := fun _ => false

/-- Tool oracle: every invocation exits 0. -/
def toolOK : List String → ProcResult := fun _ => { exitCode := 0, stderr := "" }

/-- Tool oracle: every invocation exits 1 with diagnostic text. -/
def toolFail : List String → ProcResult := fun _ => { exitCode := 1, stderr := "boom" }

/-- File-reading oracle: every file is empty. -/
def readNil : String → List String := fun _ => []

/-- File-reading oracle: a one-line cutlist whose times are not valid
`HH:MM:SS` strings. -/
def readBadTimes : String → List String := fun _ => ["XX YY a"]

/-- A line is accepted by the cutlist loop exactly when, after stripping,
it is non-empty, is not a `#` comment, and has exactly 3 whitespace
tokens. -/
def wellFormedLine (line : String) : Bool :=
  let t := pyStrip line
  !(decide (t = "")) && !(pyStartsWith t "#") && decide ((pySplit t).length = 3)

theorem parseCutLine_of_wf (line : String) (h : wellFormedLine line = true) :
    ∃ a b c, pySplit (pyStrip line) = [a, b, c] ∧
      parseCutLine line = some { start := a, «end» := b, output := c ++ ".mp4" } := by
  unfold wellFormedLine at h
  simp only [Bool.and_eq_true, Bool.not_eq_true', decide_eq_true_eq, decide_eq_false_iff_not] at h
  obtain ⟨⟨h1, h2⟩, h3⟩ := h
  rcases hsp : pySplit (pyStrip line) with _ | ⟨a, _ | ⟨b, _ | ⟨c, _ | rest⟩⟩⟩ <;>
    simp [hsp] at h3
  exact ⟨a, b, c, rfl, by simp [parseCutLine, h1, h2, hsp]⟩

theorem parseCutLine_of_not_wf (line : String) (h : wellFormedLine line = false) :
    parseCutLine line = none := by
  unfold wellFormedLine at h
  unfold parseCutLine
  by_cases h1 : pyStrip line = "" <;> simp [h1] at h ⊢
  by_cases h2 : pyStartsWith (pyStrip line) "#" <;> simp [h2] at h ⊢
  rcases hsp : pySplit (pyStrip line) with _ | ⟨a, _ | ⟨b, _ | ⟨c, _ | rest⟩⟩⟩ <;>
    simp [hsp] at h ⊢

theorem validateSegments_eq_none_iff (segs : List Segment) (i : Nat) :
    validateSegments i segs = none ↔
      ∀ seg ∈ segs, validate_time_format seg.start_time = true ∧
        validate_time_format seg.end_time = true := by
  induction segs generalizing i with
  | nil => simp [validateSegments]
  | cons seg rest ih =>
    unfold validateSegments
    by_cases h1 : validate_time_format seg.start_time <;> simp [h1]
    by_cases h2 : validate_time_format seg.end_time <;> simp [h2]
    exact ih (i + 1)

theorem applyEffect_mono (fs : String → Bool) (q : String) (h : fs q = true)
    (e : Effect) : applyEffect fs e q = true := by
  cases e <;> simp [applyEffect, h]

theorem applyEffects_mono (es : List Effect) (fs : String → Bool) (q : String)
    (h : fs q = true) : applyEffects fs es q = true := by
  induction es generalizing fs with
  | nil => exact h
  | cons e rest ih => exact ih (applyEffect fs e) (applyEffect_mono fs q h e)

theorem checkFields_none_fst (y z : Option Int) : checkFields none y z = false := rfl

theorem checkFields_none_snd (x : Int) (z : Option Int) :
    checkFields (some x) none z = false := rfl

theorem checkFields_none_thd (x y : Int) :
    checkFields (some x) (some y) none = false := rfl

/-- C2: `validate_time_format` returns `true` iff splitting on `:` gives
exactly 3 components, each parses as a base-10 integer (Python `int`
semantics, modelled by `pyInt`), and hours ∈ [0,23], minutes ∈ [0,59],
seconds ∈ [0,59]; on every other string it returns `false` (it is a
total function, so the bare `except:` never lets an exception escape). -/
theorem C2_validate_time_format_iff (s : String) :
    validate_time_format s = true ↔
      ∃ p1 p2 p3 : String, splitColon s = [p1, p2, p3] ∧
        ∃ hours minutes seconds : Int,
          pyInt p1 = some hours ∧ pyInt p2 = some minutes ∧ pyInt p3 = some seconds ∧
          0 ≤ hours ∧ hours ≤ 23 ∧ 0 ≤ minutes ∧ minutes ≤ 59 ∧
          0 ≤ seconds ∧ seconds ≤ 59 := by
  constructor
  · intro h
    rcases hs : splitColon s with _ | ⟨p1, _ | ⟨p2, _ | ⟨p3, _ | rest⟩⟩⟩ <;>
      unfold validate_time_format at h <;> rw [hs] at h
    · exact absurd h (by simp)
    · exact absurd h (by simp)
    · exact absurd h (by simp)
    · have h' : checkFields (pyInt p1) (pyInt p2) (pyInt p3) = true := h
      rcases h1 : pyInt p1 with _ | hours <;> rw [h1] at h'
      · exact absurd h' (by rw [checkFields_none_fst]; simp)
      rcases h2 : pyInt p2 with _ | minutes <;> rw [h2] at h'
      · exact absurd h' (by rw [checkFields_none_snd]; simp)
      rcases h3 : pyInt p3 with _ | seconds <;> rw [h3] at h'
      · exact absurd h' (by rw [checkFields_none_thd]; simp)
      have h'' : (decide (0 ≤ hours) && decide (hours ≤ 23) &&
          decide (0 ≤ minutes) && decide (minutes ≤ 59) &&
          decide (0 ≤ seconds) && decide (seconds ≤ 59)) = true := h'
      simp only [Bool.and_eq_true, decide_eq_true_eq] at h''
      obtain ⟨⟨⟨⟨⟨ha, hb⟩, hc⟩, hd⟩, he⟩, hf⟩ := h''
      exact ⟨p1, p2, p3, rfl, hours, minutes, seconds, h1, h2, h3,
        ha, hb, hc, hd, he, hf⟩
    · exact absurd h (by simp)
  · rintro ⟨p1, p2, p3, hs, hours, minutes, seconds, h1, h2, h3,
      ha, hb, hc, hd, he, hf⟩
    unfold validate_time_format
    rw [hs]
    show checkFields (pyInt p1) (pyInt p2) (pyInt p3) = true
    rw [h1, h2, h3]
    show (decide (0 ≤ hours) && decide (hours ≤ 23) &&
        decide (0 ≤ minutes) && decide (minutes ≤ 59) &&
        decide (0 ≤ seconds) && decide (seconds ≤ 59)) = true
    simp [ha, hb, hc, hd, he, hf]

/-- C4: the cutlist parser yields exactly one entry per line that, after
stripping, is non-empty, is not a `#` comment, and splits into exactly 3
whitespace tokens, in original line order, with the first two tokens
giving the start and end fields; every other line contributes nothing.
The concrete cutlist of the claim yields exactly one segment with start
`00:00:10` and end `00:00:20`. -/
theorem C4_cutlist_parser_characterisation :
    (∀ lines : List String,
       (process_cutlist lines).length = lines.countP wellFormedLine) ∧
    (∀ lines : List String,
       (process_cutlist lines).map (fun c => (c.start, c.«end»)) =
         (lines.filter wellFormedLine).map
           (fun l => ((pySplit (pyStrip l)).headI, (pySplit (pyStrip l)).tail.headI))) ∧
    process_cutlist ["00:00:10 00:00:20 clip1", "bad line", "# comment"] =
      [{ start := "00:00:10", «end» := "00:00:20", output := "clip1.mp4" }] := by
  refine ⟨?_, ?_, by decide⟩
  · intro lines
    induction lines with
    | nil => simp [process_cutlist]
    | cons l rest ih =>
      cases hw : wellFormedLine l
      · have hp := parseCutLine_of_not_wf l hw
        simp [process_cutlist, List.filterMap_cons, hp, List.countP_cons, hw] at ih ⊢
        exact ih
      · obtain ⟨a, b, c, hsp, hp⟩ := parseCutLine_of_wf l hw
        simp [process_cutlist, List.filterMap_cons, hp, List.countP_cons, hw] at ih ⊢
        exact ih
  · intro lines
    induction lines with
    | nil => simp [process_cutlist]
    | cons l rest ih =>
      cases hw : wellFormedLine l
      · have hp := parseCutLine_of_not_wf l hw
        simp [process_cutlist, List.filterMap_cons, hp, List.filter_cons, hw] at ih ⊢
        exact ih
      · obtain ⟨a, b, c, hsp, hp⟩ := parseCutLine_of_wf l hw
        simp [process_cutlist, List.filterMap_cons, hp, List.filter_cons, hw, hsp] at ih ⊢
        exact ih

theorem create_segments_from_file_ok (fs : String → Bool) (read : String → List String)
    (tool : List String → ProcResult) (req : FromFileRequest)
    (h1 : fs (os_path_join SHARED_FOLDER req.input_file) = true)
    (h2 : fs (os_path_join SHARED_FOLDER req.cutlist_file) = true) :
    create_segments_from_file fs read tool req =
      (BatchResp.ok ((process_cutlist (read (os_path_join SHARED_FOLDER req.cutlist_file))).map
        (fun cut => { output_file := os_path_join req.output_folder cut.output,
                      success := (cut_video tool (os_path_join SHARED_FOLDER req.input_file)
                        cut.start cut.«end»
                        (os_path_join (os_path_join SHARED_FOLDER req.output_folder)
                          cut.output)).success })),
       Effect.makedirs (os_path_join SHARED_FOLDER req.output_folder) true ::
         (process_cutlist (read (os_path_join SHARED_FOLDER req.cutlist_file))).map
           (fun cut => Effect.runTool (cut_video_cmd (os_path_join SHARED_FOLDER req.input_file)
             cut.start cut.«end»
             (os_path_join (os_path_join SHARED_FOLDER req.output_folder) cut.output)))) := by
  unfold create_segments_from_file
  simp only [h1, h2, Bool.and_self, Bool.not_true, Bool.false_eq_true, if_false, List.map_map]
  rfl

theorem create_segments_ok (fs : String → Bool) (tool : List String → ProcResult)
    (req : SegmentsRequest)
    (hne : req.segments.isEmpty = false)
    (hv : validateSegments 0 req.segments = none)
    (hf : fs (os_path_join SHARED_FOLDER req.input_file) = true) :
    create_segments fs tool req =
      (BatchResp.ok (req.segments.map (fun seg =>
         { output_file := os_path_join req.output_folder (seg.output_name ++ ".mp4"),
           start_time := seg.start_time, end_time := seg.end_time,
           success := (cut_video tool (os_path_join SHARED_FOLDER req.input_file)
             seg.start_time seg.end_time
             (os_path_join (os_path_join SHARED_FOLDER req.output_folder)
               (seg.output_name ++ ".mp4"))).success })),
       Effect.makedirs (os_path_join SHARED_FOLDER req.output_folder) true ::
         req.segments.map (fun seg => Effect.runTool (cut_video_cmd
           (os_path_join SHARED_FOLDER req.input_file) seg.start_time seg.end_time
           (os_path_join (os_path_join SHARED_FOLDER req.output_folder)
             (seg.output_name ++ ".mp4"))))) := by
  unfold create_segments
  rw [hne, hv]
  simp only [hf, Bool.not_true, Bool.false_eq_true, if_false, List.map_map]
  rfl

theorem create_segments_empty (fs : String → Bool) (tool : List String → ProcResult)
    (req : SegmentsRequest) (hne : req.segments.isEmpty = true) :
    create_segments fs tool req =
      (BatchResp.err "segments must be a non-empty array" 400, []) := by
  unfold create_segments
  rw [hne]
  rfl

theorem create_segments_invalid (fs : String → Bool) (tool : List String → ProcResult)
    (req : SegmentsRequest) (msg : String)
    (hne : req.segments.isEmpty = false) (hv : validateSegments 0 req.segments = some msg) :
    create_segments fs tool req = (BatchResp.err msg 400, []) := by
  unfold create_segments
  rw [hne, hv]
  rfl

theorem create_segments_notfound (fs : String → Bool) (tool : List String → ProcResult)
    (req : SegmentsRequest)
    (hne : req.segments.isEmpty = false) (hv : validateSegments 0 req.segments = none)
    (hf : fs (os_path_join SHARED_FOLDER req.input_file) = false) :
    create_segments fs tool req = (BatchResp.err "Input file not found" 404, []) := by
  unfold create_segments
  rw [hne, hv]
  simp only [hf, Bool.not_false, if_true]
  rfl

theorem create_segments_from_file_notfound (fs : String → Bool)
    (read : String → List String) (tool : List String → ProcResult) (req : FromFileRequest)
    (h : (fs (os_path_join SHARED_FOLDER req.input_file) &&
          fs (os_path_join SHARED_FOLDER req.cutlist_file)) = false) :
    create_segments_from_file fs read tool req =
      (BatchResp.err "Input file or cutlist file not found" 404, []) := by
  unfold create_segments_from_file
  simp only [h, Bool.not_false, if_true]

/-- C5 counterexample: on the accepted line `00:00:10 00:00:20 clip1` the
parser stores `clip1.mp4` as the output field, not the bare third token
`clip1` — extension selection happens inside the cutlist parser. -/
theorem C5_counterexample :
    (process_cutlist ["00:00:10 00:00:20 clip1"]).map CutSpec.output = ["clip1.mp4"] ∧
    ("clip1.mp4" : String) ≠ "clip1" := by
  exact ⟨by decide, by decide⟩

/-- C5 amended: for every accepted cutlist line the parser stores the third
token with the fixed `.mp4` extension already appended; the cutlist-driven
batch endpoint then uses that stored name unchanged when building output
paths. -/
theorem C5_amended_parser_appends_extension :
    (∀ line a b c : String, pyStrip line ≠ "" →
       pyStartsWith (pyStrip line) "#" = false →
       pySplit (pyStrip line) = [a, b, c] →
       parseCutLine line = some { start := a, «end» := b, output := c ++ ".mp4" }) ∧
    (∀ (fs : String → Bool) (read : String → List String)
       (tool : List String → ProcResult) (req : FromFileRequest),
       fs (os_path_join SHARED_FOLDER req.input_file) = true →
       fs (os_path_join SHARED_FOLDER req.cutlist_file) = true →
       ∃ rs, (create_segments_from_file fs read tool req).fst = BatchResp.ok rs ∧
         rs.map FromFileOutcome.output_file =
           (process_cutlist (read (os_path_join SHARED_FOLDER req.cutlist_file))).map
             (fun cut => os_path_join req.output_folder cut.output)) := by
  constructor
  · intro line a b c h1 h2 h3
    unfold parseCutLine
    simp [h1, h2, h3]
  · intro fs read tool req h1 h2
    rw [create_segments_from_file_ok fs read tool req h1 h2]
    refine ⟨_, rfl, ?_⟩
    simp [List.map_map]

/-- C5 amended witness at the concrete line `00:00:10 00:00:20 clip1`. -/
theorem C5_amended_witness :
    parseCutLine "00:00:10 00:00:20 clip1" =
      some { start := "00:00:10", «end» := "00:00:20", output := "clip1" ++ ".mp4" } :=
  C5_amended_parser_appends_extension.1 "00:00:10 00:00:20 clip1"
    "00:00:10" "00:00:20" "clip1" (by decide) (by decide) (by decide)

/-- C1 counterexample.  First conjunct: a structured batch whose first item
has an invalid start time is rejected whole with a 400 error — no failed
outcome is recorded for the item, the valid second item is not processed,
and no effect (no tool invocation) happens, refuting "without aborting the
remaining items".  Second conjunct: the cutlist-driven endpoint invokes
the external tool for an item whose time strings `XX`/`YY` fail time
validation, refuting "without invoking the external transcoding tool". -/
theorem C1_counterexample :
    create_segments fsAll toolOK
      { input_file := "input.mp4",
        segments := [{ start_time := "bad", end_time := "00:00:02", output_name := "a" },
                     { start_time := "00:00:01", end_time := "00:00:02", output_name := "b" }],
        output_folder := "out" } =
      (BatchResp.err "Invalid start_time format at index 0. Required format: HH:MM:SS" 400,
       []) ∧
    create_segments_from_file fsAll readBadTimes toolOK
      { input_file := "in.mp4", cutlist_file := "cl.txt", output_folder := "out" } =
      (BatchResp.ok [{ output_file := "out/a.mp4", success := true }],
       [Effect.makedirs "/shared/out" true,
        Effect.runTool (cut_video_cmd "/shared/in.mp4" "XX" "YY" "/shared/out/a.mp4")]) := by
  exact ⟨by decide, by decide⟩

/-- C1 amended: if any structured-list item has an invalid start or end
time, the `/segments` endpoint rejects the entire batch with a 400 error
before creating the directory or invoking the external tool, producing no
outcomes for any item; the cutlist-driven endpoint performs no time
validation and invokes the external tool once per parsed cut regardless of
the cut's time strings. -/
theorem C1_amended_validation_aborts_batch :
    (∀ (fs : String → Bool) (tool : List String → ProcResult) (req : SegmentsRequest),
       (∃ seg ∈ req.segments, validate_time_format seg.start_time = false ∨
          validate_time_format seg.end_time = false) →
       ∃ msg, create_segments fs tool req = (BatchResp.err msg 400, [])) ∧
    (∀ (fs : String → Bool) (read : String → List String)
       (tool : List String → ProcResult) (req : FromFileRequest),
       fs (os_path_join SHARED_FOLDER req.input_file) = true →
       fs (os_path_join SHARED_FOLDER req.cutlist_file) = true →
       (create_segments_from_file fs read tool req).snd =
         Effect.makedirs (os_path_join SHARED_FOLDER req.output_folder) true ::
           (process_cutlist (read (os_path_join SHARED_FOLDER req.cutlist_file))).map
             (fun cut => Effect.runTool (cut_video_cmd
               (os_path_join SHARED_FOLDER req.input_file) cut.start cut.«end»
               (os_path_join (os_path_join SHARED_FOLDER req.output_folder) cut.output)))) := by
  constructor
  · intro fs tool req hbad
    have hne : req.segments.isEmpty = false := by
      obtain ⟨seg, hseg, -⟩ := hbad
      cases hh : req.segments with
      | nil => rw [hh] at hseg; cases hseg
      | cons a l => rfl
    cases hv : validateSegments 0 req.segments with
    | none =>
      exfalso
      rw [validateSegments_eq_none_iff] at hv
      obtain ⟨seg, hseg, hor⟩ := hbad
      obtain ⟨hst, hen⟩ := hv seg hseg
      cases hor with
      | inl h => rw [hst] at h; cases h
      | inr h => rw [hen] at h; cases h
    | some msg =>
      exact ⟨msg, create_segments_invalid fs tool req msg hne hv⟩
  · intro fs read tool req h1 h2
    rw [create_segments_from_file_ok fs read tool req h1 h2]

/-- C1 amended witness: a one-item batch with hour field 25 is rejected
whole with a 400 error and an empty effect trace. -/
theorem C1_amended_witness :
    ∃ msg, create_segments fsAll toolOK
      { input_file := "input.mp4",
        segments := [{ start_time := "25:00:00", end_time := "00:00:02", output_name := "a" }],
        output_folder := "out" } = (BatchResp.err msg 400, []) :=
  C1_amended_validation_aborts_batch.1 fsAll toolOK _
    ⟨{ start_time := "25:00:00", end_time := "00:00:02", output_name := "a" },
     by decide, Or.inl (by decide)⟩

/-- C3 counterexample: a structured batch of N = 2 requested items whose
second item has an out-of-range end time returns an error with zero
outcomes, not 2 outcomes — the orchestrator does not return one outcome
per requested item in this case. -/
theorem C3_counterexample :
    create_segments fsAll toolOK
      { input_file := "input.mp4",
        segments := [{ start_time := "00:00:01", end_time := "00:00:02", output_name := "a" },
                     { start_time := "00:00:01", end_time := "99:00:00", output_name := "b" }],
        output_folder := "out" } =
      (BatchResp.err "Invalid end_time format at index 1. Required format: HH:MM:SS" 400,
       []) := by
  decide

/-- C3 amended: whenever a batch endpoint reaches processing and returns
the `ok` result (up-front validation and existence checks passed), it
returns exactly one outcome per requested item, in input order, for every
behaviour of the external tool — so no number of individual tool failures
shortens or reorders the outcome list; a batch failing an up-front check
is instead rejected with an error and zero outcomes. -/
theorem C3_amended_full_enumeration :
    (∀ (fs : String → Bool) (tool : List String → ProcResult)
       (req : SegmentsRequest) (rs : List SegOutcome) (effs : List Effect),
       create_segments fs tool req = (BatchResp.ok rs, effs) →
       rs.length = req.segments.length ∧
       rs.map (fun o => (o.start_time, o.end_time, o.output_file)) =
         req.segments.map (fun seg => (seg.start_time, seg.end_time,
           os_path_join req.output_folder (seg.output_name ++ ".mp4")))) ∧
    (∀ (fs : String → Bool) (read : String → List String)
       (tool : List String → ProcResult) (req : FromFileRequest)
       (rs : List FromFileOutcome) (effs : List Effect),
       create_segments_from_file fs read tool req = (BatchResp.ok rs, effs) →
       rs.length =
         (process_cutlist (read (os_path_join SHARED_FOLDER req.cutlist_file))).length ∧
       rs.map FromFileOutcome.output_file =
         (process_cutlist (read (os_path_join SHARED_FOLDER req.cutlist_file))).map
           (fun cut => os_path_join req.output_folder cut.output)) := by
  constructor
  · intro fs tool req rs effs h
    cases hne : req.segments.isEmpty with
    | true =>
      rw [create_segments_empty fs tool req hne] at h
      exact absurd h (by simp)
    | false =>
      cases hv : validateSegments 0 req.segments with
      | some msg =>
        rw [create_segments_invalid fs tool req msg hne hv] at h
        exact absurd h (by simp)
      | none =>
        cases hf : fs (os_path_join SHARED_FOLDER req.input_file) with
        | false =>
          rw [create_segments_notfound fs tool req hne hv hf] at h
          exact absurd h (by simp)
        | true =>
          rw [create_segments_ok fs tool req hne hv hf] at h
          rw [Prod.mk.injEq] at h
          obtain ⟨hok, -⟩ := h
          rw [BatchResp.ok.injEq] at hok
          subst hok
          refine ⟨by simp, ?_⟩
          simp [List.map_map]
  · intro fs read tool req rs effs h
    cases hb : (fs (os_path_join SHARED_FOLDER req.input_file) &&
        fs (os_path_join SHARED_FOLDER req.cutlist_file)) with
    | false =>
      rw [create_segments_from_file_notfound fs read tool req hb] at h
      exact absurd h (by simp)
    | true =>
      rw [Bool.and_eq_true] at hb
      obtain ⟨h1, h2⟩ := hb
      rw [create_segments_from_file_ok fs read tool req h1 h2] at h
      rw [Prod.mk.injEq] at h
      obtain ⟨hok, -⟩ := h
      rw [BatchResp.ok.injEq] at hok
      subst hok
      refine ⟨by simp, ?_⟩
      simp [List.map_map]

/-- C3 amended witness: a two-item batch in which every tool invocation
fails still yields exactly 2 outcomes, in input order. -/
theorem C3_amended_witness :
    ([{ output_file := "out/a.mp4", start_time := "00:00:01", end_time := "00:00:02",
        success := false },
      { output_file := "out/b.mp4", start_time := "00:00:03", end_time := "00:00:04",
        success := false }] : List SegOutcome).length =
      ([{ start_time := "00:00:01", end_time := "00:00:02", output_name := "a" },
        { start_time := "00:00:03", end_time := "00:00:04", output_name := "b" }] :
          List Segment).length ∧
    ([{ output_file := "out/a.mp4", start_time := "00:00:01", end_time := "00:00:02",
        success := false },
      { output_file := "out/b.mp4", start_time := "00:00:03", end_time := "00:00:04",
        success := false }] : List SegOutcome).map
        (fun o => (o.start_time, o.end_time, o.output_file)) =
      ([{ start_time := "00:00:01", end_time := "00:00:02", output_name := "a" },
        { start_time := "00:00:03", end_time := "00:00:04", output_name := "b" }] :
          List Segment).map
        (fun seg => (seg.start_time, seg.end_time,
          os_path_join "out" (seg.output_name ++ ".mp4"))) :=
  C3_amended_full_enumeration.1 fsAll toolFail
    { input_file := "input.mp4",
      segments := [{ start_time := "00:00:01", end_time := "00:00:02", output_name := "a" },
                   { start_time := "00:00:03", end_time := "00:00:04", output_name := "b" }],
      output_folder := "out" }
    [{ output_file := "out/a.mp4", start_time := "00:00:01", end_time := "00:00:02",
       success := false },
     { output_file := "out/b.mp4", start_time := "00:00:03", end_time := "00:00:04",
       success := false }]
    [Effect.makedirs "/shared/out" true,
     Effect.runTool (cut_video_cmd "/shared/input.mp4" "00:00:01" "00:00:02"
       "/shared/out/a.mp4"),
     Effect.runTool (cut_video_cmd "/shared/input.mp4" "00:00:03" "00:00:04"
       "/shared/out/b.mp4")]
    (by decide)

/-- C6: if the input file (or, for the cutlist-driven endpoint, the
cutlist file) does not exist, the batch is rejected before any work: the
response is an error, no outcome is produced, and the effect trace is
empty — no directory creation and no tool invocation. -/
theorem C6_missing_input_rejects_batch :
    (∀ (fs : String → Bool) (read : String → List String)
       (tool : List String → ProcResult) (req : FromFileRequest),
       (fs (os_path_join SHARED_FOLDER req.input_file) = false ∨
        fs (os_path_join SHARED_FOLDER req.cutlist_file) = false) →
       create_segments_from_file fs read tool req =
         (BatchResp.err "Input file or cutlist file not found" 404, [])) ∧
    (∀ (fs : String → Bool) (tool : List String → ProcResult) (req : SegmentsRequest),
       fs (os_path_join SHARED_FOLDER req.input_file) = false →
       (∃ msg code, (create_segments fs tool req).fst = BatchResp.err msg code) ∧
       (create_segments fs tool req).snd = []) := by
  constructor
  · intro fs read tool req hor
    refine create_segments_from_file_notfound fs read tool req ?_
    cases hor with
    | inl h => rw [h]; rfl
    | inr h => rw [h, Bool.and_false]
  · intro fs tool req hf
    cases hne : req.segments.isEmpty with
    | true =>
      rw [create_segments_empty fs tool req hne]
      exact ⟨⟨_, _, rfl⟩, rfl⟩
    | false =>
      cases hv : validateSegments 0 req.segments with
      | some msg =>
        rw [create_segments_invalid fs tool req msg hne hv]
        exact ⟨⟨_, _, rfl⟩, rfl⟩
      | none =>
        rw [create_segments_notfound fs tool req hne hv hf]
        exact ⟨⟨_, _, rfl⟩, rfl⟩

/-- C6 witness: with an empty filesystem both endpoints reject a concrete
batch with no effects. -/
theorem C6_witness :
    create_segments_from_file fsNone readNil toolOK
      { input_file := "in.mp4", cutlist_file := "cl.txt", output_folder := "out" } =
      (BatchResp.err "Input file or cutlist file not found" 404, []) ∧
    (∃ msg code, (create_segments fsNone toolOK
      { input_file := "in.mp4",
        segments := [{ start_time := "00:00:01", end_time := "00:00:02", output_name := "a" }],
        output_folder := "out" }).fst = BatchResp.err msg code) ∧
    (create_segments fsNone toolOK
      { input_file := "in.mp4",
        segments := [{ start_time := "00:00:01", end_time := "00:00:02", output_name := "a" }],
        output_folder := "out" }).snd = [] :=
  ⟨C6_missing_input_rejects_batch.1 fsNone readNil toolOK
     { input_file := "in.mp4", cutlist_file := "cl.txt", output_folder := "out" }
     (Or.inl rfl),
   C6_missing_input_rejects_batch.2 fsNone toolOK
     { input_file := "in.mp4",
       segments := [{ start_time := "00:00:01", end_time := "00:00:02", output_name := "a" }],
       output_folder := "out" } rfl |>.1,
   C6_missing_input_rejects_batch.2 fsNone toolOK
     { input_file := "in.mp4",
       segments := [{ start_time := "00:00:01", end_time := "00:00:02", output_name := "a" }],
       output_folder := "out" } rfl |>.2⟩

/-- C7 counterexample: the request format `MP3` is neither `mp3` nor
`wav`, yet the request is not rejected — the endpoint lower-cases the
format first, accepts it, and invokes the external tool. -/
theorem C7_counterexample :
    ("MP3" : String) ≠ "mp3" ∧ ("MP3" : String) ≠ "wav" ∧
    extract_audio_endpoint fsAll toolOK
      { input_file := "in.mp4", output_file := "out", format := some "MP3" } =
      (SingleResp.ok "out.mp3",
       [Effect.runTool (extract_audio_cmd "/shared/in.mp4" "/shared/out.mp3" "mp3")]) := by
  exact ⟨by decide, by decide, by decide⟩

/-- C7 amended: a request whose format, lower-cased (with a missing format
field defaulting to `mp3`), is neither `mp3` nor `wav` is rejected with
the unsupported-format error before any filesystem check or external
invocation; formats differing from `mp3`/`wav` only by letter case are
accepted instead. -/
theorem C7_amended_format_rejection (fs : String → Bool)
    (tool : List String → ProcResult) (req : ExtractAudioRequest)
    (h1 : pyLower (req.format.getD "mp3") ≠ "mp3")
    (h2 : pyLower (req.format.getD "mp3") ≠ "wav") :
    extract_audio_endpoint fs tool req =
      (SingleResp.err "Unsupported audio format. Use mp3 or wav" 400, []) := by
  unfold extract_audio_endpoint
  simp [h1, h2]

/-- C7 amended witness: format `ogg` is rejected before any invocation. -/
theorem C7_amended_witness :
    extract_audio_endpoint fsAll toolOK
      { input_file := "in.mp4", output_file := "out", format := some "ogg" } =
      (SingleResp.err "Unsupported audio format. Use mp3 or wav" 400, []) :=
  C7_amended_format_rejection fsAll toolOK
    { input_file := "in.mp4", output_file := "out", format := some "ogg" }
    (by decide) (by decide)

/-- C8: each of the three runners is a total function of the tool's
behaviour (no exception propagates — the only raised exception,
`CalledProcessError`, is caught inside), returning `true` exactly when the
subprocess exit status is zero; on non-zero exit it returns `false` and
logs the captured standard-error text. -/
theorem C8_runner_boolean_contract (tool : List String → ProcResult)
    (input_path output_path start_time end_time audio_format : String) :
    ((cut_video tool input_path start_time end_time output_path).success = true ↔
       (tool (cut_video_cmd input_path start_time end_time output_path)).exitCode = 0) ∧
    ((extract_audio tool input_path output_path audio_format).success = true ↔
       (tool (extract_audio_cmd input_path output_path audio_format)).exitCode = 0) ∧
    ((extract_muted_video tool input_path output_path).success = true ↔
       (tool (extract_muted_video_cmd input_path output_path)).exitCode = 0) ∧
    (∀ r : ProcResult, r.exitCode = 0 →
       runCheckedTool r = { success := true, log := [] }) ∧
    (∀ r : ProcResult, r.exitCode ≠ 0 →
       runCheckedTool r =
         { success := false, log := ["Error running ffmpeg: " ++ r.stderr] }) := by
  refine ⟨?_, ?_, ?_, ?_, ?_⟩
  · unfold cut_video runCheckedTool
    by_cases h : (tool (cut_video_cmd input_path start_time end_time output_path)).exitCode = 0 <;>
      simp [h]
  · unfold extract_audio runCheckedTool
    by_cases h : (tool (extract_audio_cmd input_path output_path audio_format)).exitCode = 0 <;>
      simp [h]
  · unfold extract_muted_video runCheckedTool
    by_cases h : (tool (extract_muted_video_cmd input_path output_path)).exitCode = 0 <;>
      simp [h]
  · intro r h
    unfold runCheckedTool
    simp [h]
  · intro r h
    unfold runCheckedTool
    simp [h]

/-- C8 witness at exit status 0 and exit status 1. -/
theorem C8_witness :
    runCheckedTool { exitCode := 0, stderr := "" } = { success := true, log := [] } ∧
    runCheckedTool { exitCode := 1, stderr := "boom" } =
      { success := false, log := ["Error running ffmpeg: " ++ "boom"] } :=
  ⟨(C8_runner_boolean_contract toolOK "i" "o" "s" "e" "mp3").2.2.2.1
     { exitCode := 0, stderr := "" } rfl,
   (C8_runner_boolean_contract toolOK "i" "o" "s" "e" "mp3").2.2.2.2
     { exitCode := 1, stderr := "boom" } (by decide)⟩

/-- C9: with the input and cutlist files present, a cutlist batch run
succeeds; every directory creation in its effect trace passes
`exist_ok=True` (so a pre-existing directory, in particular one left by a
previous run, never raises), every external invocation carries the `-y`
overwrite flag, and re-running the identical batch against the filesystem
produced by the first run succeeds again. -/
theorem C9_rerun_succeeds (fs : String → Bool) (read : String → List String)
    (tool : List String → ProcResult) (req : FromFileRequest)
    (h1 : fs (os_path_join SHARED_FOLDER req.input_file) = true)
    (h2 : fs (os_path_join SHARED_FOLDER req.cutlist_file) = true) :
    (∃ rs, (create_segments_from_file fs read tool req).fst = BatchResp.ok rs) ∧
    (∀ p b, Effect.makedirs p b ∈ (create_segments_from_file fs read tool req).snd →
       b = true) ∧
    (∀ cmd, Effect.runTool cmd ∈ (create_segments_from_file fs read tool req).snd →
       "-y" ∈ cmd) ∧
    (∀ p, makedirs_raises
       (applyEffects fs (create_segments_from_file fs read tool req).snd) p true = false) ∧
    (∃ rs, (create_segments_from_file
       (applyEffects fs (create_segments_from_file fs read tool req).snd)
       read tool req).fst = BatchResp.ok rs) := by
  have hok := create_segments_from_file_ok fs read tool req h1 h2
  refine ⟨⟨_, congrArg Prod.fst hok⟩, ?_, ?_, ?_, ?_⟩
  · intro p b hmem
    rw [hok] at hmem
    rcases List.mem_cons.mp hmem with h | h
    · injection h
    · obtain ⟨cut, -, hcut⟩ := List.mem_map.mp h
      cases hcut
  · intro cmd hmem
    rw [hok] at hmem
    rcases List.mem_cons.mp hmem with h | h
    · cases h
    · obtain ⟨cut, -, hcut⟩ := List.mem_map.mp h
      rw [Effect.runTool.injEq] at hcut
      subst hcut
      simp [cut_video_cmd]
  · intro p
    simp [makedirs_raises]
  · have h1' := applyEffects_mono (create_segments_from_file fs read tool req).snd fs
      (os_path_join SHARED_FOLDER req.input_file) h1
    have h2' := applyEffects_mono (create_segments_from_file fs read tool req).snd fs
      (os_path_join SHARED_FOLDER req.cutlist_file) h2
    exact ⟨_, congrArg Prod.fst (create_segments_from_file_ok _ read tool req h1' h2')⟩

/-- C9 witness: a concrete re-runnable batch. -/
theorem C9_witness :
    ∃ rs, (create_segments_from_file
      (applyEffects fsAll (create_segments_from_file fsAll readNil toolOK
        { input_file := "in.mp4", cutlist_file := "cl.txt", output_folder := "out" }).snd)
      readNil toolOK
      { input_file := "in.mp4", cutlist_file := "cl.txt", output_folder := "out" }).fst =
      BatchResp.ok rs :=
  (C9_rerun_succeeds fsAll readNil toolOK
    { input_file := "in.mp4", cutlist_file := "cl.txt", output_folder := "out" }
    rfl rfl).2.2.2.2

theorem str_append_assoc (a b c : String) : a ++ b ++ c = a ++ (b ++ c) := by
  cases a with | mk as =>
  cases b with | mk bs =>
  cases c with | mk cs =>
  exact congrArg String.mk (List.append_assoc as bs cs)

/-- C10: the batch endpoints append `.mp4` to each output name
unconditionally — a name already ending in `.mp4` becomes `clip.mp4.mp4`,
both via `/segments` and via the cutlist parser — whereas the single-item
endpoints append the extension only when the supplied output file does not
already end with it. -/
theorem C10_extension_appending :
    (∀ inp fld nm : String,
       (create_segments fsAll toolOK
         { input_file := inp,
           segments := [{ start_time := "00:00:01", end_time := "00:00:02",
                          output_name := nm }],
           output_folder := fld }).fst =
         BatchResp.ok [{ output_file := os_path_join fld (nm ++ ".mp4"),
                         start_time := "00:00:01", end_time := "00:00:02",
                         success := true }]) ∧
    (create_segments fsAll toolOK
       { input_file := "in.mp4",
         segments := [{ start_time := "00:00:01", end_time := "00:00:02",
                        output_name := "clip.mp4" }],
         output_folder := "out" }).fst =
      BatchResp.ok [{ output_file := "out/clip.mp4.mp4", start_time := "00:00:01",
                      end_time := "00:00:02", success := true }] ∧
    process_cutlist ["00:00:01 00:00:02 clip.mp4"] =
      [{ start := "00:00:01", «end» := "00:00:02", output := "clip.mp4.mp4" }] ∧
    (∀ f : String,
       (extract_audio_endpoint fsAll toolOK
         { input_file := "in.mp4", output_file := f, format := some "mp3" }).fst =
         SingleResp.ok (if pyEndsWith f ".mp3" then f else f ++ ".mp3")) ∧
    (∀ f : String,
       (extract_muted_video_endpoint fsAll toolOK
         { input_file := "in.mp4", output_file := f }).fst =
         SingleResp.ok (if pyEndsWith f ".mp4" then f else f ++ ".mp4")) ∧
    (extract_audio_endpoint fsAll toolOK
       { input_file := "in.mp4", output_file := "voice.mp3", format := some "mp3" }).fst =
      SingleResp.ok "voice.mp3" ∧
    (extract_muted_video_endpoint fsAll toolOK
       { input_file := "in.mp4", output_file := "clip.mp4" }).fst =
      SingleResp.ok "clip.mp4" := by
  refine ⟨?_, by decide, by decide, ?_, ?_, by decide, by decide⟩
  · intro inp fld nm
    rfl
  · intro f
    have h1 : pyLower ((some "mp3" : Option String).getD "mp3") = "mp3" := by decide
    have h2 : ("." ++ "mp3" : String) = ".mp3" := by decide
    unfold extract_audio_endpoint
    simp only [h1, h2, str_append_assoc, fsAll]
    simp [extract_audio, runCheckedTool, toolOK]
  · intro f
    rfl

example : validate_time_format "23:59:59" = true := by decide
example : validate_time_format "24:00:00" = false := by decide
example : validate_time_format " 1: 2: 3" = true := by decide
example : validate_time_format "+1:-0:3" = true := by decide
example : pyInt "1_2" = some 12 := by decide
example : pyInt "1__2" = none := by decide
example : pyInt "_1" = none := by decide
example : pyEndsWith "clip.mp4" ".mp4" = true := by decide
example : pyEndsWith "clip" ".mp4" = false := by decide
